import Mathlib

/-!
Verification development for the financial-query-agent repository.

Shallow embedding of the guardrail validation engine (src/guardrails.py),
the indicator engine and portfolio tools (src/tools.py), the stock-data
cache / retry layer (src/tools.py) and the validate pipeline stage
(src/agent.py), together with theorems settling the frozen claims.

Python floats are modelled as rationals (ℚ); every arithmetic operation a
claim depends on is exact at the inputs involved, so the rational model
agrees with the float semantics there.  Text is modelled as `String` /
`List Char`; the small regular expressions of the source are modelled by
explicit scanning functions whose nondeterminism mirrors the backtracking
semantics of the Python `re` module on the concrete patterns involved
(ASCII fragment, which covers every pattern and every input considered).
-/

/-! ## Character classes (ASCII fragment of the Python `re` classes) -/

/-- Python `\w` (word character), ASCII fragment: letters, digits, underscore. -/
def isWordChar (c : Char) : Bool := c.isAlphanum || c == '_'

/-- Python `\s` (whitespace), ASCII fragment: space, tab, newline, CR, VT, FF. -/
def isSpaceChar (c : Char) : Bool :=
  c.toNat == 32 || c.toNat == 9 || c.toNat == 10 || c.toNat == 13 || c.toNat == 11 || c.toNat == 12

/-- Character class `[\d.]` of the confidence-score regex. -/
def isDigitDot (c : Char) : Bool := c.isDigit || c == '.'

/-- Lowercasing of a character list; models Python `str.lower()` on ASCII text
(`Char.toLower` lowercases exactly the ASCII uppercase letters). -/
def toLowerL (l : List Char) : List Char := l.map Char.toLower

/-- Substring test: does `pat` occur contiguously inside `hay`?  Models the
Python `in` operator on strings. -/
def containsSub (pat : List Char) : List Char → Bool
  | [] => pat.isPrefixOf []
  | c :: rest => pat.isPrefixOf (c :: rest) || containsSub pat rest

/-- Word-character test on an optional character; the absent character (start
or end of the text) counts as a non-word character, as in Python `re`. -/
def isWordO : Option Char → Bool
  | none => false
  | some c => isWordChar c

/-- Python `\b`: a word boundary lies between two (optional) characters iff
exactly one of them is a word character. -/
def wordBoundary (a b : Option Char) : Bool := isWordO a != isWordO b

/-! ## Guardrail validation engine — src/guardrails.py -/

namespace GuardrailValidator

/-- Red-flag phrases of `OVERCONFIDENT_PHRASES`; the source wraps each in
`\b...\b`, which the word-boundary search `wbSearch` below supplies. -/
def OVERCONFIDENT_PHRASES : List String :=
  ["you must", "you should definitely", "guaranteed", "certain to",
   "will definitely", "always buy", "never sell", "perfect",
   "advisable to", "you need to"]

def REQUIRED_DISCLAIMER : String := "not financial advice"

/-- Does pattern `pat` occur at this exact position, with `\b` on both sides?
`prev` is the character just before the position (none at the start). -/
def wbHere (pat : List Char) (prev : Option Char) (hay : List Char) : Bool :=
  wordBoundary prev pat.head? && pat.isPrefixOf hay &&
    wordBoundary pat.getLast? (hay.drop pat.length).head?

/-- Scan of all positions of the text for a `\b pat \b` occurrence. -/
def wbSearchAux (pat : List Char) (prev : Option Char) : List Char → Bool
  | [] => wbHere pat prev []
  | c :: rest => wbHere pat prev (c :: rest) || wbSearchAux pat (some c) rest

/-- Models `re.search(r"\b pat \b", hay)` (as a Boolean). -/
def wbSearch (pat : List Char) (hay : List Char) : Bool := wbSearchAux pat none hay

/-- Model of `GuardrailValidator.check_overconfidence`: flags every
overconfident phrase that occurs (word-bounded, case-insensitively) in the
text; ok iff nothing was flagged. -/
def check_overconfidence (text : String) : Bool × List String :=
  let flagged := OVERCONFIDENT_PHRASES.filter
    (fun pat => wbSearch (toLowerL pat.data) (toLowerL text.data))
  (flagged.isEmpty, flagged)

/-- Model of `GuardrailValidator.check_has_disclaimer`. -/
def check_has_disclaimer (text : String) : Bool × String :=
  if containsSub REQUIRED_DISCLAIMER.data (toLowerL text.data) then
    (true, "Disclaimer found")
  else
    (false, "Missing financial advice disclaimer")

/-- Case-insensitive literal match of `pat` at the head of `hay`; on success
returns the remainder of `hay`. -/
def matchCI : List Char → List Char → Option (List Char)
  | [], hay => some hay
  | _ :: _, [] => none
  | p :: ps, c :: cs => if p.toLower = c.toLower then matchCI ps cs else none

/-- After the `(confidence|score):` label, the regex requires `\s*[\d.]+`:
optional whitespace and then at least one digit-or-dot character. -/
def leadsDigitDot (rest : List Char) : Bool :=
  match (rest.dropWhile isSpaceChar).head? with
  | some c => isDigitDot c
  | none => false

/-- Match of `(confidence|score):\s*[\d.]+` (IGNORECASE) at this position. -/
def confLabelHere (hay : List Char) : Bool :=
  (match matchCI "confidence:".data hay with
   | some rest => leadsDigitDot rest
   | none => false) ||
  (match matchCI "score:".data hay with
   | some rest => leadsDigitDot rest
   | none => false)

/-- Match of `[\d.]+\s*/\s*1\.0` at this position.  A backtracking match
exists here iff the maximal `[\d.]` run works, since the character after the
run can be neither a digit-dot (maximality) nor consumed by `\s*/`. -/
def ratioHere (hay : List Char) : Bool :=
  !(hay.takeWhile isDigitDot).isEmpty &&
    (match (hay.dropWhile isDigitDot).dropWhile isSpaceChar with
     | c :: rest => c == '/' && "1.0".data.isPrefixOf (rest.dropWhile isSpaceChar)
     | [] => false)

/-- Match of `\d+%` at this position (maximal digit run, same argument). -/
def pctHere (hay : List Char) : Bool :=
  !(hay.takeWhile Char.isDigit).isEmpty &&
    (hay.dropWhile Char.isDigit).head? == some '%'

/-- Try a position predicate at every suffix of the text (`re.search`). -/
def searchPos (p : List Char → Bool) : List Char → Bool
  | [] => p []
  | c :: rest => p (c :: rest) || searchPos p rest

/-- Model of `GuardrailValidator.check_has_confidence_score`. -/
def check_has_confidence_score (text : String) : Bool × String :=
  if searchPos confLabelHere text.data then (true, "Confidence score found")
  else if searchPos ratioHere text.data then (true, "Confidence score found (X/1.0 format)")
  else if searchPos pctHere text.data then (true, "Likely confidence score found")
  else (false, "No explicit confidence score")

def reasoning_indicators : List String :=
  ["rsi", "volatility", "momentum", "moving average", "price", "analysis",
   "indicator", "signal", "technical", "reason", "because"]

/-- Model of `GuardrailValidator.check_has_reasoning`. -/
def check_has_reasoning (text : String) : Bool × String :=
  let found := reasoning_indicators.filter
    (fun ind => containsSub ind.data (toLowerL text.data))
  if 2 ≤ found.length then
    (true, "Reasoning indicators found: " ++ String.intercalate ", " (found.take 3))
  else
    (false, "Insufficient reasoning provided")

/-- Nondeterministic consumption of one or more digits: every possible
(last consumed character, remainder) pair. -/
def digitsPlus : List Char → List (Char × List Char)
  | [] => []
  | c :: rest => if c.isDigit then (c, rest) :: digitsPlus rest else []

/-- Nondeterministic consumption of zero or more digits. -/
def digitsStar (last : Char) (l : List Char) : List (Char × List Char) :=
  (last, l) :: digitsPlus l

/-- Backtracking match of the number regex tail `\d+\.?\d*%?\b` at this
position (the leading `\b` is checked by the caller). -/
def numHere (hay : List Char) : Bool :=
  (digitsPlus hay).any (fun s1 =>
    let afterDot := s1 :: (match s1.2 with
      | c :: r => if c == '.' then [(c, r)] else []
      | [] => [])
    afterDot.any (fun s2 =>
      (digitsStar s2.1 s2.2).any (fun s3 =>
        let afterPct := s3 :: (match s3.2 with
          | c :: r => if c == '%' then [(c, r)] else []
          | [] => [])
        afterPct.any (fun s4 => wordBoundary (some s4.1) s4.2.head?))))

/-- Scan of all positions for a `\b\d+\.?\d*%?\b` number token; the leading
`\b` holds iff the preceding character is not a word character. -/
def numSearchAux (prev : Option Char) : List Char → Bool
  | [] => false
  | c :: rest => ((!isWordO prev) && numHere (c :: rest)) || numSearchAux (some c) rest

/-- Does the text contain a number token, in the sense of the
`re.findall(r"\b\d+\.?\d*%?\b", text)` call of `check_no_hallucination`
being nonempty? -/
def hasNumberToken (text : String) : Bool := numSearchAux none text.data

def predictive_patterns : List String :=
  ["will rise", "will fall", "tomorrow", "next week", "guaranteed"]

/-- Model of `GuardrailValidator.check_no_hallucination`.  The source
interpolates the number-token count into the first flag message; the count
itself is elided here (no claim depends on the message text). -/
def check_no_hallucination (text : String) (used_data_points : List String) :
    Bool × List String :=
  let numberFlag : List String :=
    if hasNumberToken text && used_data_points.isEmpty then
      ["Specific numbers cited but no data context provided"]
    else []
  let predictiveFlags := (predictive_patterns.filter
      (fun pat => containsSub (toLowerL pat.data) (toLowerL text.data))).map
    (fun pat => "Potentially predictive claim: " ++ pat)
  let suspicious := numberFlag ++ predictiveFlags
  (suspicious.isEmpty, suspicious)

/-- Outcome of a single guardrail check inside the verdict dictionary. -/
structure CheckResult where
  passed : Bool
  reason : String
deriving DecidableEq

/-- Model of the dictionary returned by `GuardrailValidator.validate`. -/
structure Verdict where
  all_passed : Bool
  overconfidence : CheckResult
  disclaimer : CheckResult
  confidence_score : CheckResult
  reasoning : CheckResult
  hallucination : CheckResult
  score : ℚ
deriving DecidableEq

/-- Model of `GuardrailValidator.validate`: runs the five checks and builds
the verdict, `all_passed` being their conjunction and `score` the Python
`sum([...]) / 5.0` of the five Booleans. -/
def validate (response : String) (data_context : List String) : Verdict :=
  let overconfidence_res := check_overconfidence response
  let disclaimer_res := check_has_disclaimer response
  let confidence_res := check_has_confidence_score response
  let reasoning_res := check_has_reasoning response
  let hallucination_res := check_no_hallucination response data_context
  { all_passed := overconfidence_res.1 && disclaimer_res.1 && confidence_res.1 &&
      reasoning_res.1 && hallucination_res.1
    overconfidence := ⟨overconfidence_res.1,
      if overconfidence_res.1 then "No overconfident language detected"
      else "Flagged: " ++ String.intercalate ", " (overconfidence_res.2.take 3)⟩
    disclaimer := ⟨disclaimer_res.1, disclaimer_res.2⟩
    confidence_score := ⟨confidence_res.1, confidence_res.2⟩
    reasoning := ⟨reasoning_res.1, reasoning_res.2⟩
    hallucination := ⟨hallucination_res.1,
      if hallucination_res.1 then "No suspicious claims"
      else "Flagged: " ++ String.intercalate ", " (hallucination_res.2.take 2)⟩
    score := ((if overconfidence_res.1 then 1 else 0) + (if disclaimer_res.1 then 1 else 0) +
      (if confidence_res.1 then 1 else 0) + (if reasoning_res.1 then 1 else 0) +
      (if hallucination_res.1 then 1 else 0) : ℚ) / 5 }

/-- Number of the five checks of a verdict that passed. -/
def passedChecks (v : Verdict) : ℕ :=
  (if v.overconfidence.passed then 1 else 0) + (if v.disclaimer.passed then 1 else 0) +
  (if v.confidence_score.passed then 1 else 0) + (if v.reasoning.passed then 1 else 0) +
  (if v.hallucination.passed then 1 else 0)

end GuardrailValidator

/-- C1: for every response text and every list of supporting data fragments,
the verdict returned by `GuardrailValidator.validate` has score equal to
(number of the five checks that passed)/5, and its `all_passed` field is true
iff all five checks passed (equivalently, iff the score equals 1). -/
theorem C1_guardrail_score_fraction (response : String) (data_context : List String) :
    (GuardrailValidator.validate response data_context).score =
      (GuardrailValidator.passedChecks (GuardrailValidator.validate response data_context) : ℚ) / 5
    ∧ ((GuardrailValidator.validate response data_context).all_passed = true ↔
      GuardrailValidator.passedChecks (GuardrailValidator.validate response data_context) = 5)
    ∧ ((GuardrailValidator.validate response data_context).all_passed = true ↔
      (GuardrailValidator.validate response data_context).score = 1) := by
  cases h1 : (GuardrailValidator.check_overconfidence response).1 <;>
  cases h2 : (GuardrailValidator.check_has_disclaimer response).1 <;>
  cases h3 : (GuardrailValidator.check_has_confidence_score response).1 <;>
  cases h4 : (GuardrailValidator.check_has_reasoning response).1 <;>
  cases h5 : (GuardrailValidator.check_no_hallucination response data_context).1 <;>
    simp [GuardrailValidator.validate, GuardrailValidator.passedChecks, h1, h2, h3, h4, h5] <;>
    norm_num

/-! ## Claim C2 — the worked guardrail example -/

/-- Substring test agrees with the infix relation on lists. -/
theorem containsSub_spec (pat hay : List Char) :
    containsSub pat hay = true ↔ pat <:+: hay := by
  induction hay with
  | nil =>
    simp [containsSub, List.isPrefixOf_iff_prefix, List.prefix_nil, List.infix_nil]
  | cons c rest ih =>
    simp [containsSub, List.isPrefixOf_iff_prefix, List.infix_cons_iff, ih]

/-- A position predicate holding at some suffix makes the whole scan succeed. -/
theorem searchPos_true_of_suffix (p : List Char → Bool) (l s : List Char)
    (hs : s <:+ l) (hp : p s = true) : GuardrailValidator.searchPos p l = true := by
  induction l with
  | nil =>
    have hnil : s = [] := List.suffix_nil.mp hs
    subst hnil
    simpa [GuardrailValidator.searchPos] using hp
  | cons c rest ih =>
    rcases List.suffix_cons_iff.mp hs with h | h
    · subst h
      simp [GuardrailValidator.searchPos, hp]
    · simp [GuardrailValidator.searchPos, ih h]

/-- The confidence-score label regex matches at any position starting with the
literal text Confidence: 0.72, whatever follows. -/
theorem confLabelHere_conf (t : List Char) :
    GuardrailValidator.confLabelHere ("Confidence: 0.72".data ++ t) = true := rfl

/-- A list containing two distinct elements has length at least two. -/
theorem two_le_length_of_two_mem {α : Type} {l : List α} {a b : α}
    (hne : a ≠ b) (ha : a ∈ l) (hb : b ∈ l) : 2 ≤ l.length := by
  induction l with
  | nil => simp at ha
  | cons x xs ih =>
    rcases List.mem_cons.mp ha with rfl | ha₂
    · rcases List.mem_cons.mp hb with rfl | hb₂
      · exact absurd rfl hne
      · have := List.length_pos_of_mem hb₂
        simp only [List.length_cons]
        omega
    · have := List.length_pos_of_mem ha₂
      simp only [List.length_cons]
      omega

/-- Concrete response text of the spec example: carries the confidence value,
the disclaimer, two analytic terms, no overconfident and no predictive
phrasing. -/
def c2_text : String := "RSI momentum. Confidence: 0.72. This is not financial advice."

/-- C2 counterexample: a text satisfying every condition of the claim, for
which `validate` with an empty data-fragment list does NOT pass all five
checks — the no-hallucination check flags the numeric tokens because zero
supporting data fragments were supplied, so the score is 4/5, not 1. -/
theorem C2_example_counterexample :
    (containsSub "Confidence: 0.72".data c2_text.data = true
      ∧ containsSub "not financial advice".data c2_text.data = true
      ∧ containsSub "rsi".data (toLowerL c2_text.data) = true
      ∧ containsSub "momentum".data (toLowerL c2_text.data) = true
      ∧ (GuardrailValidator.check_overconfidence c2_text).1 = true
      ∧ (∀ p ∈ GuardrailValidator.predictive_patterns,
          containsSub (toLowerL p.data) (toLowerL c2_text.data) = false))
    ∧ (GuardrailValidator.validate c2_text []).all_passed = false
    ∧ (GuardrailValidator.validate c2_text []).score = 4/5 := by
  have hb1 : (GuardrailValidator.check_overconfidence c2_text).1 = true := by decide
  have hb2 : (GuardrailValidator.check_has_disclaimer c2_text).1 = true := by decide
  have hb3 : (GuardrailValidator.check_has_confidence_score c2_text).1 = true := by decide
  have hb4 : (GuardrailValidator.check_has_reasoning c2_text).1 = true := by decide
  have hb5 : (GuardrailValidator.check_no_hallucination c2_text []).1 = false := by decide
  refine ⟨by decide, ?_, ?_⟩ <;>
    simp [GuardrailValidator.validate, hb1, hb2, hb3, hb4, hb5] <;> norm_num

/-- C2 (amended): for every response text containing "Confidence: 0.72" and
"not financial advice" and at least two distinct analytic terms, with none of
the overconfident phrases and no predictive phrasing, `validate` called with
at least ONE supporting data fragment returns a verdict in which all five
checks pass and the score equals 1.0 (with zero fragments the
no-hallucination check fires on the numeric tokens). -/
theorem C2_example_all_pass (text : String) (frags : List String)
    (h1 : containsSub "Confidence: 0.72".data text.data = true)
    (h2 : containsSub "not financial advice".data text.data = true)
    (t1 t2 : String)
    (ht1 : t1 ∈ GuardrailValidator.reasoning_indicators)
    (ht2 : t2 ∈ GuardrailValidator.reasoning_indicators)
    (hne : t1 ≠ t2)
    (hc1 : containsSub t1.data (toLowerL text.data) = true)
    (hc2 : containsSub t2.data (toLowerL text.data) = true)
    (h5 : ∀ p ∈ GuardrailValidator.OVERCONFIDENT_PHRASES,
      GuardrailValidator.wbSearch (toLowerL p.data) (toLowerL text.data) = false)
    (h6 : ∀ p ∈ GuardrailValidator.predictive_patterns,
      containsSub (toLowerL p.data) (toLowerL text.data) = false)
    (h7 : frags ≠ []) :
    (GuardrailValidator.validate text frags).all_passed = true
    ∧ (GuardrailValidator.validate text frags).score = 1 := by
  -- overconfidence: nothing is flagged
  have hover : GuardrailValidator.OVERCONFIDENT_PHRASES.filter
      (fun pat => GuardrailValidator.wbSearch (toLowerL pat.data) (toLowerL text.data)) = [] :=
    List.filter_eq_nil_iff.mpr (fun p hp => by simp [h5 p hp])
  have hb1 : (GuardrailValidator.check_overconfidence text).1 = true := by
    simp [GuardrailValidator.check_overconfidence, hover]
  -- disclaimer: containment survives lowercasing
  have hdisc : containsSub GuardrailValidator.REQUIRED_DISCLAIMER.data (toLowerL text.data) = true := by
    have hinf := (containsSub_spec _ _).mp h2
    have hlow := List.IsInfix.map Char.toLower hinf
    have hfix : List.map Char.toLower "not financial advice".data = "not financial advice".data := by
      decide
    rw [hfix] at hlow
    exact (containsSub_spec _ _).mpr hlow
  have hb2 : (GuardrailValidator.check_has_disclaimer text).1 = true := by
    simp [GuardrailValidator.check_has_disclaimer, GuardrailValidator.REQUIRED_DISCLAIMER] at hdisc ⊢
    simp [hdisc]
  -- confidence score: the label regex matches inside the text
  have hb3 : (GuardrailValidator.check_has_confidence_score text).1 = true := by
    obtain ⟨s, t, hst⟩ := (containsSub_spec _ _).mp h1
    have hsuf : ("Confidence: 0.72".data ++ t) <:+ text.data := by
      refine ⟨s, ?_⟩
      rw [← hst]
      exact (List.append_assoc s "Confidence: 0.72".data t).symm
    have hs := searchPos_true_of_suffix GuardrailValidator.confLabelHere text.data _
      hsuf (confLabelHere_conf t)
    simp [GuardrailValidator.check_has_confidence_score, hs]
  -- reasoning: two distinct vocabulary terms occur
  have hm1 : t1 ∈ GuardrailValidator.reasoning_indicators.filter
      (fun ind => containsSub ind.data (toLowerL text.data)) :=
    List.mem_filter.mpr ⟨ht1, hc1⟩
  have hm2 : t2 ∈ GuardrailValidator.reasoning_indicators.filter
      (fun ind => containsSub ind.data (toLowerL text.data)) :=
    List.mem_filter.mpr ⟨ht2, hc2⟩
  have hlen : 2 ≤ (GuardrailValidator.reasoning_indicators.filter
      (fun ind => containsSub ind.data (toLowerL text.data))).length :=
    two_le_length_of_two_mem hne hm1 hm2
  have hb4 : (GuardrailValidator.check_has_reasoning text).1 = true := by
    simp [GuardrailValidator.check_has_reasoning, hlen]
  -- hallucination: nonempty data context, no predictive phrasing
  have hfe : frags.isEmpty = false := by
    cases frags with
    | nil => exact absurd rfl h7
    | cons a l => rfl
  have hpredf : GuardrailValidator.predictive_patterns.filter
      (fun pat => containsSub (toLowerL pat.data) (toLowerL text.data)) = [] :=
    List.filter_eq_nil_iff.mpr (fun p hp => by simp [h6 p hp])
  have hb5 : (GuardrailValidator.check_no_hallucination text frags).1 = true := by
    simp [GuardrailValidator.check_no_hallucination, hfe, hpredf]
  refine ⟨?_, ?_⟩ <;>
    simp [GuardrailValidator.validate, hb1, hb2, hb3, hb4, hb5] <;> norm_num

/-- Witness of C2 (amended) at the concrete example text with one supporting
data fragment. -/
theorem C2_example_all_pass_witness :
    (GuardrailValidator.validate c2_text ["RSI: 72"]).all_passed = true
    ∧ (GuardrailValidator.validate c2_text ["RSI: 72"]).score = 1 :=
  C2_example_all_pass c2_text ["RSI: 72"] (by decide) (by decide) "rsi" "momentum"
    (by decide) (by decide) (by decide) (by decide) (by decide) (by decide)
    (by decide) (by decide)

/-! ## Indicator engine — src/tools.py, class IndicatorsTool -/

namespace IndicatorsTool

/-- Consecutive differences of a price series: the entries of pandas
`prices.diff()` after its leading NaN. -/
def diffs (prices : List ℚ) : List ℚ :=
  (prices.zip prices.tail).map (fun p => p.2 - p.1)

/-- Model of `IndicatorsTool.calculate_rsi`.  The source slice
`deltas[:period + 1]` holds the leading NaN of `diff()` plus the first
`period` genuine differences; the NaN belongs to neither filtered sum, so the
seed window contributes exactly `(diffs prices).take period`. -/
def calculate_rsi (prices : List ℚ) (period : ℕ) : Option ℚ :=
  if prices.length < period + 1 then none
  else
    let seed := (diffs prices).take period
    let up := (seed.filter (fun d => 0 ≤ d)).sum / (period : ℚ)
    let down := -((seed.filter (fun d => d < 0)).sum) / (period : ℚ)
    let rs := if down ≠ 0 then up / down else 0
    some (100 - 100 / (1 + rs))

/-- Modelled from the spec wording of claim C3, for comparison: the same RSI
formula with the gains/losses taken over the first `period + 1` differences
of the series. -/
def rsi_claim_window (prices : List ℚ) (period : ℕ) : Option ℚ :=
  if prices.length < period + 1 then none
  else
    let seed := (diffs prices).take (period + 1)
    let up := (seed.filter (fun d => 0 ≤ d)).sum / (period : ℚ)
    let down := -((seed.filter (fun d => d < 0)).sum) / (period : ℚ)
    let rs := if down ≠ 0 then up / down else 0
    some (100 - 100 / (1 + rs))

/-- Modelled from the amended claim: RSI with the averages taken over the
differences of the first `period + 1` prices — that is, the first `period`
differences, which is what the source computes. -/
def rsi_amended_spec (prices : List ℚ) (period : ℕ) : Option ℚ :=
  if prices.length < period + 1 then none
  else
    let window := (diffs prices).take period
    let avg_gain := (window.filter (fun d => 0 ≤ d)).sum / (period : ℚ)
    let avg_loss := -((window.filter (fun d => d < 0)).sum) / (period : ℚ)
    let rs := if avg_loss ≠ 0 then avg_gain / avg_loss else 0
    some (100 - 100 / (1 + rs))

/-- Model of `IndicatorsTool.calculate_momentum`: percent change between the
last price and the price `period` points from the end (`iloc[-period]`). -/
def calculate_momentum (prices : List ℚ) (period : ℕ) : Option ℚ :=
  if prices.length < period then none
  else
    let current := prices.getD (prices.length - 1) 0
    let past := prices.getD (prices.length - period) 0
    some ((current - past) / past * 100)

/-- Model of `IndicatorsTool.get_signal_strength`.  The damping guard models
the Python truthiness test `if volatility and volatility > 30` (None and 0.0
are both falsy). -/
def get_signal_strength (rsi momentum volatility : Option ℚ) : String :=
  match rsi, momentum with
  | some r, some m =>
    let rsi_score : ℚ :=
      if r < 30 then 2 else if r < 40 then 1 else if r > 70 then -2 else if r > 60 then -1 else 0
    let mom_score : ℚ :=
      if m > 5 then 1 else if m > 0 then 1/2 else if m < -5 then -1 else if m < 0 then -1/2 else 0
    let score := rsi_score + mom_score
    let damped : ℚ := if (match volatility with
        | some v => !(v == 0) && decide (v > 30)
        | none => false) then score * (4/5) else score
    if damped ≥ 2 then "strong_buy"
    else if damped ≥ 1/2 then "buy"
    else if damped ≤ -2 then "strong_sell"
    else if damped ≤ -1/2 then "sell"
    else "neutral"
  | _, _ => "neutral"

/-- Modelled from the spec wording of claim C4, for comparison: disjoint
contribution bands for RSI and momentum, a ×0.8 damp when volatility exceeds
30, and the final label thresholds. -/
def signal_claim (rsi momentum volatility : Option ℚ) : String :=
  match rsi, momentum with
  | some r, some m =>
    let rsi_band : ℚ :=
      (if r < 30 then 2 else 0) + (if 30 ≤ r ∧ r < 40 then 1 else 0) +
      (if 60 < r ∧ r ≤ 70 then -1 else 0) + (if 70 < r then -2 else 0)
    let mom_band : ℚ :=
      (if 5 < m then 1 else 0) + (if 0 < m ∧ m ≤ 5 then 1/2 else 0) +
      (if m < -5 then -1 else 0) + (if -5 ≤ m ∧ m < 0 then -1/2 else 0)
    let combined := rsi_band + mom_band
    let damped : ℚ := if (match volatility with
        | some v => decide (30 < v)
        | none => false) then combined * (4/5) else combined
    if damped ≥ 2 then "strong_buy"
    else if damped ≥ 1/2 then "buy"
    else if damped ≤ -2 then "strong_sell"
    else if damped ≤ -1/2 then "sell"
    else "neutral"
  | _, _ => "neutral"

end IndicatorsTool

/-! ## Claim C3 — RSI -/

/-- Sum of a list of non-positive rationals is non-positive. -/
theorem list_sum_nonpos {l : List ℚ} (h : ∀ x ∈ l, x ≤ 0) : l.sum ≤ 0 := by
  induction l with
  | nil => simp
  | cons x xs ih =>
    simp only [List.sum_cons]
    have hx := h x (List.mem_cons_self x xs)
    have hxs := ih (fun y hy => h y (List.mem_cons_of_mem x hy))
    linarith

/-- The RSI output formula lands in [0, 100] whenever the gain average is
non-negative and the loss average is non-negative. -/
theorem rsi_formula_range (gq lq : ℚ) (hg : 0 ≤ gq) (hl : 0 ≤ lq) :
    0 ≤ 100 - 100 / (1 + (if lq ≠ 0 then gq / lq else 0))
    ∧ 100 - 100 / (1 + (if lq ≠ 0 then gq / lq else 0)) ≤ 100 := by
  have hrs : 0 ≤ (if lq ≠ 0 then gq / lq else 0) := by
    split_ifs with h
    · exact div_nonneg hg hl
    · exact le_refl 0
  have h1 : (0 : ℚ) < 1 + (if lq ≠ 0 then gq / lq else 0) := by linarith
  constructor
  · have : 100 / (1 + (if lq ≠ 0 then gq / lq else 0)) ≤ 100 := by
      rw [div_le_iff₀ h1]
      nlinarith
    linarith
  · have : 0 ≤ 100 / (1 + (if lq ≠ 0 then gq / lq else 0)) :=
      div_nonneg (by norm_num) (le_of_lt h1)
    linarith

/-- Price series of 16 points on which the stated window and the implemented
window give different RSI values: fourteen unit rises followed by one drop. -/
def c3_prices : List ℚ :=
  [0, 1, 2, 3, 4, 5, 6, 7, 8, 9, 10, 11, 12, 13, 14, 0]

/-- C3 counterexample: on `c3_prices` (length 16 ≥ 15) the source averages
only the first 14 differences — all gains — giving RS = 0 and RSI = 0, while
the claimed window of the first 15 differences includes the final loss and
gives RSI = 50. -/
theorem C3_rsi_counterexample :
    IndicatorsTool.calculate_rsi c3_prices 14 = some 0
    ∧ IndicatorsTool.rsi_claim_window c3_prices 14 = some 50
    ∧ (some (0 : ℚ) ≠ some (50 : ℚ)) := by
  refine ⟨?_, ?_, by norm_num⟩ <;>
    norm_num [IndicatorsTool.calculate_rsi, IndicatorsTool.rsi_claim_window,
      IndicatorsTool.diffs, c3_prices]

/-- C3 (amended): for the default period 14, `calculate_rsi` returns
100 − 100/(1+RS) with the averages taken over the first 14 differences (the
differences of the first 15 prices), returns absent for series shorter than
15 points, and every returned value lies in [0, 100]. -/
theorem C3_rsi_range (prices : List ℚ) :
    IndicatorsTool.calculate_rsi prices 14 = IndicatorsTool.rsi_amended_spec prices 14
    ∧ (prices.length < 15 → IndicatorsTool.calculate_rsi prices 14 = none)
    ∧ (∀ x, IndicatorsTool.calculate_rsi prices 14 = some x → 0 ≤ x ∧ x ≤ 100) := by
  refine ⟨rfl, ?_, ?_⟩
  · intro h
    simp [IndicatorsTool.calculate_rsi, h]
  · intro x hx
    by_cases hlen : prices.length < 14 + 1
    · simp [IndicatorsTool.calculate_rsi, hlen] at hx
    · simp only [IndicatorsTool.calculate_rsi, if_neg hlen, Nat.cast_ofNat,
        Option.some.injEq] at hx
      have hg : 0 ≤ ((((IndicatorsTool.diffs prices).take 14).filter
          (fun d => decide (0 ≤ d))).sum) / (14 : ℚ) := by
        apply div_nonneg _ (by norm_num)
        apply List.sum_nonneg
        intro y hy
        have := (List.mem_filter.mp hy).2
        simpa using this
      have hl : 0 ≤ -(((((IndicatorsTool.diffs prices).take 14).filter
          (fun d => decide (d < 0))).sum)) / (14 : ℚ) := by
        apply div_nonneg _ (by norm_num)
        have : ((((IndicatorsTool.diffs prices).take 14).filter
            (fun d => decide (d < 0))).sum) ≤ 0 := by
          apply list_sum_nonpos
          intro y hy
          have := (List.mem_filter.mp hy).2
          have : y < 0 := by simpa using this
          linarith
        linarith
      have := rsi_formula_range _ _ hg hl
      rw [hx] at this
      exact this

/-! ## Claim C4 — signal classification -/

/-- The elif chain of RSI contributions equals the disjoint-band sum. -/
theorem rsi_band_eq (r : ℚ) :
    (if r < 30 then (2:ℚ) else if r < 40 then 1 else if r > 70 then -2 else if r > 60 then -1 else 0)
    = (if r < 30 then 2 else 0) + (if 30 ≤ r ∧ r < 40 then 1 else 0) +
      (if 60 < r ∧ r ≤ 70 then -1 else 0) + (if 70 < r then -2 else 0) := by
  rcases lt_or_le r 30 with h1 | h1
  · have hn2 : ¬(30 ≤ r ∧ r < 40) := by rintro ⟨h, -⟩; linarith
    have hn3 : ¬(60 < r ∧ r ≤ 70) := by rintro ⟨h, -⟩; linarith
    have hn4 : ¬(70 < r) := by linarith
    simp [h1, hn2, hn3, hn4]
  · rcases lt_or_le r 40 with h2 | h2
    · have hn1 : ¬ r < 30 := not_lt.mpr h1
      have hp2 : 30 ≤ r ∧ r < 40 := ⟨h1, h2⟩
      have hn3 : ¬(60 < r ∧ r ≤ 70) := by rintro ⟨h, -⟩; linarith
      have hn4 : ¬(70 < r) := by linarith
      simp [hn1, h2, hp2, hn3, hn4]
    · rcases le_or_lt r 60 with h3 | h3
      · have hn1 : ¬ r < 30 := by intro h; linarith
        have hn2f : ¬ r < 40 := not_lt.mpr h2
        have hn2 : ¬(30 ≤ r ∧ r < 40) := by rintro ⟨-, h⟩; linarith
        have hn3 : ¬(60 < r ∧ r ≤ 70) := by rintro ⟨h, -⟩; linarith
        have hn60 : ¬(60 < r) := not_lt.mpr h3
        have hn4 : ¬(70 < r) := by linarith
        simp [hn1, hn2f, hn2, hn3, hn60, hn4]
      · rcases le_or_lt r 70 with h4 | h4
        · have hn1 : ¬ r < 30 := by intro h; linarith
          have hn2f : ¬ r < 40 := by intro h; linarith
          have hn2 : ¬(30 ≤ r ∧ r < 40) := by rintro ⟨-, h⟩; linarith
          have hp3 : 60 < r ∧ r ≤ 70 := ⟨h3, h4⟩
          have hn4 : ¬(70 < r) := not_lt.mpr h4
          simp [hn1, hn2f, hn2, hp3, hn4, h3]
        · have hn1 : ¬ r < 30 := by intro h; linarith
          have hn2f : ¬ r < 40 := by intro h; linarith
          have hn2 : ¬(30 ≤ r ∧ r < 40) := by rintro ⟨-, h⟩; linarith
          have hn3 : ¬(60 < r ∧ r ≤ 70) := by rintro ⟨-, h⟩; linarith
          simp [hn1, hn2f, hn2, hn3, h4]

/-- The elif chain of momentum contributions equals the disjoint-band sum. -/
theorem mom_band_eq (m : ℚ) :
    (if m > 5 then (1:ℚ) else if m > 0 then 1/2 else if m < -5 then -1 else if m < 0 then -1/2 else 0)
    = (if 5 < m then 1 else 0) + (if 0 < m ∧ m ≤ 5 then 1/2 else 0) +
      (if m < -5 then -1 else 0) + (if -5 ≤ m ∧ m < 0 then -1/2 else 0) := by
  rcases lt_or_le 5 m with h1 | h1
  · have hn2 : ¬(0 < m ∧ m ≤ 5) := by rintro ⟨-, h⟩; linarith
    have hn3 : ¬(m < -5) := by linarith
    have hn4 : ¬(-5 ≤ m ∧ m < 0) := by rintro ⟨-, h⟩; linarith
    simp [h1, hn2, hn3, hn4]
  · rcases lt_or_le 0 m with h2 | h2
    · have hn1 : ¬ 5 < m := not_lt.mpr h1
      have hp2 : 0 < m ∧ m ≤ 5 := ⟨h2, h1⟩
      have hn3 : ¬(m < -5) := by linarith
      have hn4 : ¬(-5 ≤ m ∧ m < 0) := by rintro ⟨-, h⟩; linarith
      simp [hn1, h2, hp2, hn3, hn4]
    · rcases lt_or_le m (-5) with h3 | h3
      · have hn1 : ¬ 5 < m := by linarith
        have hn2g : ¬ 0 < m := not_lt.mpr h2
        have hn2 : ¬(0 < m ∧ m ≤ 5) := by rintro ⟨h, -⟩; linarith
        have hn4 : ¬(-5 ≤ m ∧ m < 0) := by rintro ⟨h, -⟩; linarith
        simp [hn1, hn2g, hn2, h3, hn4]
      · rcases lt_or_le m 0 with h4 | h4
        · have hn1 : ¬ 5 < m := by linarith
          have hn2g : ¬ 0 < m := not_lt.mpr h2
          have hn2 : ¬(0 < m ∧ m ≤ 5) := by rintro ⟨h, -⟩; linarith
          have hn3 : ¬(m < -5) := not_lt.mpr h3
          have hp4 : -5 ≤ m ∧ m < 0 := ⟨h3, h4⟩
          simp [hn1, hn2g, hn2, hn3, hp4, h4]
        · have hn1 : ¬ 5 < m := by linarith
          have hn2g : ¬ 0 < m := not_lt.mpr h2
          have hn2 : ¬(0 < m ∧ m ≤ 5) := by rintro ⟨h, -⟩; linarith
          have hn3 : ¬(m < -5) := by linarith
          have hn4g : ¬ m < 0 := not_lt.mpr h4
          have hn4 : ¬(-5 ≤ m ∧ m < 0) := by rintro ⟨-, h⟩; linarith
          simp [hn1, hn2g, hn2, hn3, hn4g, hn4]

/-- The final threshold chain of the signal classifier can only produce one
of the five enumerated labels. -/
theorem signal_label_mem (s : ℚ) :
    (if s ≥ 2 then "strong_buy" else if s ≥ 1/2 then "buy" else if s ≤ -2 then "strong_sell"
     else if s ≤ -1/2 then "sell" else "neutral") ∈
      ["strong_buy", "buy", "neutral", "sell", "strong_sell"] := by
  split_ifs <;> decide

/-- The Python truthiness test `volatility and volatility > 30` on a present
value coincides with the plain comparison, since 30 < v forces v ≠ 0. -/
theorem truthy_gt_eq (v : ℚ) : (!(v == 0) && decide (v > 30)) = decide (30 < v) := by
  by_cases h : (30 : ℚ) < v
  · have hv : ¬ (v = 0) := by intro h0; rw [h0] at h; norm_num at h
    simp [h, hv, gt_iff_lt, beq_iff_eq]
  · simp [h, gt_iff_lt]

/-- C4: the signal label computed by `get_signal_strength` equals the label
described by the spec (disjoint RSI/momentum bands, ×0.8 volatility damp,
fixed thresholds); the label is always one of the five enumerated values; and
an absent RSI or momentum forces "neutral". -/
theorem C4_signal_strength (rsi momentum volatility : Option ℚ) :
    IndicatorsTool.get_signal_strength rsi momentum volatility
      = IndicatorsTool.signal_claim rsi momentum volatility
    ∧ IndicatorsTool.get_signal_strength rsi momentum volatility ∈
        ["strong_buy", "buy", "neutral", "sell", "strong_sell"]
    ∧ ((rsi = none ∨ momentum = none) →
        IndicatorsTool.get_signal_strength rsi momentum volatility = "neutral") := by
  refine ⟨?_, ?_, ?_⟩
  · rcases rsi with _ | r
    · rcases momentum with _ | m <;> rfl
    · rcases momentum with _ | m
      · rfl
      · rcases volatility with _ | v
        · simp only [IndicatorsTool.get_signal_strength, IndicatorsTool.signal_claim]
          rw [rsi_band_eq r, mom_band_eq m]
        · simp only [IndicatorsTool.get_signal_strength, IndicatorsTool.signal_claim]
          rw [rsi_band_eq r, mom_band_eq m]
          simp only [truthy_gt_eq]
  · rcases rsi with _ | r
    · rcases momentum with _ | m <;> · simp only [IndicatorsTool.get_signal_strength]; decide
    · rcases momentum with _ | m
      · simp only [IndicatorsTool.get_signal_strength]; decide
      · simp only [IndicatorsTool.get_signal_strength]
        exact signal_label_mem _
  · rintro (rfl | rfl)
    · rfl
    · rcases rsi with _ | r <;> rfl

/-- Witness of C4: instantiation at an absent RSI with present momentum. -/
theorem C4_signal_strength_witness :
    IndicatorsTool.get_signal_strength none (some 1) none
      = IndicatorsTool.signal_claim none (some 1) none
    ∧ IndicatorsTool.get_signal_strength none (some 1) none ∈
        ["strong_buy", "buy", "neutral", "sell", "strong_sell"]
    ∧ IndicatorsTool.get_signal_strength none (some 1) none = "neutral" :=
  ⟨(C4_signal_strength none (some 1) none).1,
   (C4_signal_strength none (some 1) none).2.1,
   (C4_signal_strength none (some 1) none).2.2 (Or.inl rfl)⟩

/-- Witness of C3: the short-series branch at a 2-point series, and the
formula/range branch at a flat 15-point series (whose RSI is 0). -/
theorem C3_rsi_range_witness :
    IndicatorsTool.calculate_rsi [(1:ℚ), 2] 14 = none
    ∧ (0 ≤ (0:ℚ) ∧ (0:ℚ) ≤ 100) :=
  ⟨(C3_rsi_range [(1:ℚ), 2]).2.1 (by decide),
   (C3_rsi_range [1, 1, 1, 1, 1, 1, 1, 1, 1, 1, 1, 1, 1, 1, 1]).2.2 0
     (by norm_num [IndicatorsTool.calculate_rsi, IndicatorsTool.diffs])⟩

/-! ## Claim C6 — momentum on monotone series -/

/-- Strictly increasing 20-point series of negative prices on which the
momentum of the source is negative. -/
def c6_prices : List ℚ :=
  [-32, -31, -30, -29, -28, -27, -26, -25, -24, -23,
   -22, -21, -20, -19, -18, -17, -16, -15, -14, -13]

/-- C6 counterexample: a strictly increasing price series of length 20 whose
momentum is (−13 − (−32))/(−32) · 100 = −59.375 < 0 — the percent change
flips sign through the negative base price, so "strictly increasing implies
momentum > 0" fails without a positivity assumption. -/
theorem C6_momentum_counterexample :
    c6_prices.Pairwise (· < ·)
    ∧ 20 ≤ c6_prices.length
    ∧ IndicatorsTool.calculate_momentum c6_prices 20 = some (-475/8)
    ∧ ¬ (0:ℚ) < -475/8 := by
  refine ⟨by decide, by decide, ?_, by norm_num⟩
  norm_num [IndicatorsTool.calculate_momentum, c6_prices]

/-- C6 (amended): for a strictly increasing series of POSITIVE prices with at
least 20 points, `calculate_momentum` (default period 20) returns a strictly
positive value. -/
theorem C6_momentum_positive (prices : List ℚ)
    (hlen : 20 ≤ prices.length)
    (hmono : prices.Pairwise (· < ·))
    (hpos : ∀ x ∈ prices, 0 < x) :
    ∃ m, IndicatorsTool.calculate_momentum prices 20 = some m ∧ 0 < m := by
  have hnl : ¬ prices.length < 20 := by omega
  have hi1 : prices.length - 1 < prices.length := by omega
  have hi2 : prices.length - 20 < prices.length := by omega
  have hcur : prices.getD (prices.length - 1) 0 = prices.get ⟨prices.length - 1, hi1⟩ :=
    List.getD_eq_get prices 0 hi1
  have hpast : prices.getD (prices.length - 20) 0 = prices.get ⟨prices.length - 20, hi2⟩ :=
    List.getD_eq_get prices 0 hi2
  have hij : (⟨prices.length - 20, hi2⟩ : Fin prices.length) < ⟨prices.length - 1, hi1⟩ := by
    simp only [Fin.mk_lt_mk]
    omega
  have hlt : prices.get ⟨prices.length - 20, hi2⟩ < prices.get ⟨prices.length - 1, hi1⟩ :=
    List.pairwise_iff_get.mp hmono _ _ hij
  have hp : 0 < prices.get ⟨prices.length - 20, hi2⟩ :=
    hpos _ (prices.get_mem _ _)
  refine ⟨(prices.get ⟨prices.length - 1, hi1⟩ - prices.get ⟨prices.length - 20, hi2⟩) /
      prices.get ⟨prices.length - 20, hi2⟩ * 100, ?_, ?_⟩
  · simp only [IndicatorsTool.calculate_momentum, if_neg hnl, hcur, hpast]
  · have h1 : 0 < prices.get ⟨prices.length - 1, hi1⟩ - prices.get ⟨prices.length - 20, hi2⟩ := by
      linarith
    exact mul_pos (div_pos h1 hp) (by norm_num)

/-- Witness of C6 (amended) at the series 1, 2, ..., 20. -/
theorem C6_momentum_positive_witness :
    ∃ m, IndicatorsTool.calculate_momentum
      [(1:ℚ), 2, 3, 4, 5, 6, 7, 8, 9, 10, 11, 12, 13, 14, 15, 16, 17, 18, 19, 20] 20
        = some m ∧ 0 < m :=
  C6_momentum_positive _ (by decide) (by decide) (by decide)

/-! ## Portfolio analysis — src/tools.py, class PortfolioTool -/

namespace PortfolioTool

/-- Model of `PortfolioTool.calculate_portfolio_value`: sum of
shares × price over the holdings whose symbol has a price.  Dictionaries are
modelled as association lists in insertion order. -/
def calculate_portfolio_value (holdings prices : List (String × ℚ)) : ℚ :=
  holdings.foldl (fun total p =>
    match prices.lookup p.1 with
    | some price => total + p.2 * price
    | none => total) 0

/-- Model of `PortfolioTool.calculate_allocation`: percent of the total value
held in each priced position; empty when the total value is zero. -/
def calculate_allocation (holdings prices : List (String × ℚ)) : List (String × ℚ) :=
  let total_value := calculate_portfolio_value holdings prices
  if total_value = 0 then []
  else holdings.filterMap (fun p =>
    match prices.lookup p.1 with
    | some price => some (p.1, p.2 * price / total_value * 100)
    | none => none)

end PortfolioTool

/-- C9: on holdings AAPL:10, GOOGL:5 with prices AAPL:150, GOOGL:140 the
portfolio value is 2200 and the allocations are exactly 750/11 % (≈68.18) and
350/11 % (≈31.82), summing to 100 %. -/
theorem C9_portfolio_example :
    PortfolioTool.calculate_portfolio_value
        [("AAPL", 10), ("GOOGL", 5)] [("AAPL", 150), ("GOOGL", 140)] = 2200
    ∧ PortfolioTool.calculate_allocation
        [("AAPL", 10), ("GOOGL", 5)] [("AAPL", 150), ("GOOGL", 140)]
        = [("AAPL", 750/11), ("GOOGL", 350/11)]
    ∧ (750/11 : ℚ) + 350/11 = 100 := by
  have e1 : ("AAPL" == "AAPL") = true := by rfl
  have e2 : ("GOOGL" == "AAPL") = false := by rfl
  have e3 : ("GOOGL" == "GOOGL") = true := by rfl
  have hv : PortfolioTool.calculate_portfolio_value
      [("AAPL", 10), ("GOOGL", 5)] [("AAPL", 150), ("GOOGL", 140)] = 2200 := by
    norm_num [PortfolioTool.calculate_portfolio_value, List.lookup, List.foldl, e1, e2, e3]
  refine ⟨hv, ?_, by norm_num⟩
  rw [PortfolioTool.calculate_allocation, hv]
  norm_num [List.lookup, List.filterMap, e1, e2, e3]

/-! ## Data acquisition and cache layer — src/tools.py, class StockDataTool

Time is modelled as an integer clock supplied per call (`datetime.now` /
`time.time`); sleeps are recorded as effects and do not advance the clock.
The upstream Yahoo endpoint and the random generator are oracles in `Env`:
`fetch k` is the outcome of the k-th `_fetch_from_yahoo_api` call of this
invocation, and `rng` the draws `_get_mock_data` makes. -/

namespace StockDataTool

/-- Model of the snapshot dictionary built by `_fetch_from_yahoo_api` /
`_get_mock_data` (`open` is a Lean keyword, hence `open_price`). -/
structure Snapshot where
  symbol : String
  price : ℚ
  open_price : ℚ
  high : ℚ
  low : ℚ
  volume : ℤ
  date : String
  change_percent : ℚ
  history : List ℚ
deriving DecidableEq

/-- Outcome of one `_fetch_from_yahoo_api` call, as the retry loop sees it. -/
inductive FetchOutcome where
  | ok (d : Snapshot)
  | nodata
  | http429
  | httpOther (code : ℕ)
  | exc
deriving DecidableEq

/-- Externally visible effects of a `get_stock_data` call. -/
inductive Effect where
  | fetchAttempt (symbol period : String) (attempt : ℕ)
  | backoff (secs : ℕ)
  | rateWait (secs : ℤ)
deriving DecidableEq

/-- Draws `_get_mock_data` takes from `random`. -/
structure MockRng where
  noise : ℚ
  volume : ℤ
  change_percent : ℚ
  hist_noises : List ℚ
deriving DecidableEq

/-- Per-call environment: clock, date string, fetch oracle, random draws. -/
structure Env where
  now : ℤ
  today : String
  fetch : ℕ → FetchOutcome
  rng : MockRng

/-- Mutable state of a `StockDataTool` instance. -/
structure ToolState where
  cache : List (String × ℤ × Snapshot)
  cache_duration : ℤ
  use_mock : Bool
  last_request_time : ℤ
  min_request_interval : ℤ
deriving DecidableEq

/-- Uppercasing; models Python `str.upper()` on ASCII symbols. -/
def toUpperS (s : String) : String := s.map Char.toUpper

/-- The `base_prices` table of `_get_mock_data`. -/
def base_prices : List (String × ℚ) :=
  [("AAPL", 273), ("TSLA", 280), ("NVDA", 920), ("GOOGL", 190),
   ("MSFT", 460), ("AMZN", 250)]

/-- Model of `_get_mock_data`: symbol-specific base price with bounded noise
and a synthetic close-price history (252 draws in the source). -/
def get_mock_data (symbol : String) (today : String) (rng : MockRng) : Snapshot :=
  let base := (base_prices.lookup (toUpperS symbol)).getD 100
  let price := base * (1 + rng.noise)
  { symbol := toUpperS symbol
    price := price
    open_price := price * (98/100)
    high := price * (102/100)
    low := price * (95/100)
    volume := rng.volume
    date := today
    change_percent := rng.change_percent
    history := rng.hist_noises.map (fun e => base * (1 + e)) }

/-- Cache lookup, `symbol in self.cache`. -/
def cacheLookup (cache : List (String × ℤ × Snapshot)) (symbol : String) :
    Option (ℤ × Snapshot) :=
  cache.lookup symbol

/-- Cache overwrite, `self.cache[symbol] = (timestamp, data)`. -/
def cacheInsert (cache : List (String × ℤ × Snapshot)) (symbol : String)
    (v : ℤ × Snapshot) : List (String × ℤ × Snapshot) :=
  (symbol, v) :: cache.filter (fun p => !(p.1 == symbol))

/-- Mock-mode fallback after the retry loop: synthesize a snapshot and cache
it like a real result, else return the absent result. -/
def fallback (st : ToolState) (env : Env) (symbol : String) (effs : List Effect) :
    Option Snapshot × ToolState × List Effect :=
  if st.use_mock then
    let d := get_mock_data symbol env.today env.rng
    (some d, { st with cache := cacheInsert st.cache symbol (env.now, d) }, effs)
  else (none, st, effs)

/-- The `for attempt in range(3)` retry loop of `get_stock_data`: a fetched
dict is cached and returned; a falsy result retries at once; HTTP 429 sleeps
(2^attempt)·2 seconds and retries; any other error breaks to the fallback. -/
def retryLoop (st : ToolState) (env : Env) (symbol period : String) :
    ℕ → ℕ → List Effect → Option Snapshot × ToolState × List Effect
  | 0, _, effs => fallback st env symbol effs
  | fuel + 1, attempt, effs =>
    match env.fetch attempt with
    | .ok d =>
        (some d,
         { st with cache := cacheInsert st.cache symbol (env.now, d),
                   last_request_time := env.now },
         effs ++ [.fetchAttempt symbol period attempt])
    | .nodata =>
        retryLoop st env symbol period fuel (attempt + 1)
          (effs ++ [.fetchAttempt symbol period attempt])
    | .http429 =>
        retryLoop st env symbol period fuel (attempt + 1)
          (effs ++ [.fetchAttempt symbol period attempt, .backoff ((2 ^ attempt) * 2)])
    | .httpOther _ => fallback st env symbol (effs ++ [.fetchAttempt symbol period attempt])
    | .exc => fallback st env symbol (effs ++ [.fetchAttempt symbol period attempt])

/-- The rate-limiting wait before the retry loop (`min_request_interval`). -/
def rateLimitEffects (st : ToolState) (env : Env) : List Effect :=
  if env.now - st.last_request_time < st.min_request_interval
  then [Effect.rateWait (st.min_request_interval - (env.now - st.last_request_time))]
  else []

/-- The non-cached path of `get_stock_data`: rate-limit wait, then at most
three fetch attempts, then the fallback policy. -/
def fetchFresh (st : ToolState) (env : Env) (symbol period : String) :
    Option Snapshot × ToolState × List Effect :=
  retryLoop st env symbol period 3 0 (rateLimitEffects st env)

/-- Model of `StockDataTool.get_stock_data`: a non-stale cache entry is
returned with no effects at all; otherwise the fetch path runs. -/
def get_stock_data (st : ToolState) (env : Env) (symbol period : String) :
    Option Snapshot × ToolState × List Effect :=
  match cacheLookup st.cache symbol with
  | some (ts, d) =>
      if env.now - ts < st.cache_duration then (some d, st, [])
      else fetchFresh st env symbol period
  | none => fetchFresh st env symbol period

/-- Is there a non-stale cache entry for this symbol at this instant? -/
def cacheFresh (st : ToolState) (symbol : String) (now : ℤ) : Bool :=
  match cacheLookup st.cache symbol with
  | some (ts, _) => decide (now - ts < st.cache_duration)
  | none => false

/-- Is this effect an upstream fetch attempt? -/
def isFetch : Effect → Bool
  | .fetchAttempt _ _ _ => true
  | _ => false

/-- Number of upstream fetch attempts among the effects. -/
def fetchCount (effs : List Effect) : ℕ := (effs.filter isFetch).length

/-- The backoff sleep durations among the effects, in order. -/
def backoffs (effs : List Effect) : List ℕ :=
  effs.filterMap (fun e => match e with | .backoff s => some s | _ => none)

end StockDataTool

namespace StockDataTool

/-- Looking up a symbol right after overwriting its cache entry yields that
entry. -/
theorem cacheLookup_insert_self (cache : List (String × ℤ × Snapshot)) (sym : String)
    (v : ℤ × Snapshot) : cacheLookup (cacheInsert cache sym v) sym = some v := by
  simp [cacheLookup, cacheInsert, List.lookup]

/-- The fallback never adds effects. -/
theorem fallback_effects (st : ToolState) (env : Env) (sym : String) (effs : List Effect) :
    (fallback st env sym effs).2.2 = effs := by
  unfold fallback
  split_ifs <;> rfl

/-- The fallback result is the mock snapshot in mock mode, else absent. -/
theorem fallback_fst (st : ToolState) (env : Env) (sym : String) (effs : List Effect) :
    (fallback st env sym effs).1 =
      (if st.use_mock then some (get_mock_data sym env.today env.rng) else none) := by
  unfold fallback
  split_ifs <;> rfl

/-- In mock mode the fallback caches the synthesized snapshot. -/
theorem fallback_cache_mock (st : ToolState) (env : Env) (sym : String) (effs : List Effect)
    (hm : st.use_mock = true) :
    cacheLookup (fallback st env sym effs).2.1.cache sym =
      some (env.now, get_mock_data sym env.today env.rng) := by
  simp only [fallback, hm, if_true]
  exact cacheLookup_insert_self _ _ _

/-- Whenever the fallback returns a snapshot, that snapshot is in the cache
under the requested symbol, stamped with the current clock. -/
theorem fallback_cache_some (st : ToolState) (env : Env) (sym : String) (effs : List Effect)
    (d : Snapshot) (h : (fallback st env sym effs).1 = some d) :
    cacheLookup (fallback st env sym effs).2.1.cache sym = some (env.now, d) := by
  unfold fallback at h ⊢
  split_ifs at h ⊢ with hm
  simp only [Option.some.injEq] at h
  subst h
  exact cacheLookup_insert_self _ _ _

/-- Whenever the retry loop returns a snapshot, that snapshot is in the cache
under the requested symbol, stamped with the current clock. -/
theorem retryLoop_cache_some (st : ToolState) (env : Env) (sym per : String) (d : Snapshot) :
    ∀ fuel attempt effs,
      (retryLoop st env sym per fuel attempt effs).1 = some d →
      cacheLookup (retryLoop st env sym per fuel attempt effs).2.1.cache sym =
        some (env.now, d) := by
  intro fuel
  induction fuel with
  | zero => intro attempt effs h; exact fallback_cache_some st env sym effs d h
  | succ n ih =>
    intro attempt effs h
    cases hf : env.fetch attempt with
    | ok d0 =>
      simp only [retryLoop, hf] at h ⊢
      simp only [Option.some.injEq] at h
      subst h
      exact cacheLookup_insert_self _ _ _
    | nodata =>
      simp only [retryLoop, hf] at h ⊢
      exact ih _ _ h
    | http429 =>
      simp only [retryLoop, hf] at h ⊢
      exact ih _ _ h
    | httpOther c =>
      simp only [retryLoop, hf] at h ⊢
      exact fallback_cache_some _ _ _ _ _ h
    | exc =>
      simp only [retryLoop, hf] at h ⊢
      exact fallback_cache_some _ _ _ _ _ h

/-- A fresh cache entry short-circuits `get_stock_data` with no effects. -/
theorem get_stock_data_hit (st : ToolState) (env : Env) (sym per : String) (ts : ℤ)
    (d : Snapshot) (h1 : cacheLookup st.cache sym = some (ts, d))
    (h2 : env.now - ts < st.cache_duration) :
    get_stock_data st env sym per = (some d, st, []) := by
  unfold get_stock_data
  rw [h1]
  simp [h2]

/-- Without a fresh cache entry, `get_stock_data` runs the fetch path. -/
theorem get_stock_data_miss (st : ToolState) (env : Env) (sym per : String)
    (hf : cacheFresh st sym env.now = false) :
    get_stock_data st env sym per = fetchFresh st env sym per := by
  unfold cacheFresh at hf
  unfold get_stock_data
  rcases hc : cacheLookup st.cache sym with _ | ⟨ts, d0⟩
  · rfl
  · rw [hc] at hf
    simp only [decide_eq_false_iff_not] at hf
    simp [hf]

/-- Whenever `get_stock_data` returns a snapshot, the resulting state caches
exactly that snapshot under the requested symbol. -/
theorem get_stock_data_cache_some (st : ToolState) (env : Env) (sym per : String) (d : Snapshot)
    (h : (get_stock_data st env sym per).1 = some d) :
    ∃ ts, cacheLookup (get_stock_data st env sym per).2.1.cache sym = some (ts, d) := by
  unfold get_stock_data at h ⊢
  rcases hc : cacheLookup st.cache sym with _ | ⟨ts, d0⟩
  · rw [hc] at h
    exact ⟨env.now, retryLoop_cache_some st env sym per d 3 0 _ h⟩
  · rw [hc] at h
    by_cases hfr : env.now - ts < st.cache_duration
    · simp only [hfr, if_true, Option.some.injEq] at h ⊢
      exact ⟨ts, by rw [hc, h]⟩
    · simp only [hfr, if_false] at h ⊢
      exact ⟨env.now, retryLoop_cache_some st env sym per d 3 0 _ h⟩

end StockDataTool

/-- C5: if a `get_stock_data` call returns a snapshot, a second call for the
same symbol and period made while the resulting cache entry is younger than
the TTL returns the identical snapshot and performs no effects at all — in
particular no network request. -/
theorem C5_cache_roundtrip (st : StockDataTool.ToolState) (env1 env2 : StockDataTool.Env)
    (sym per : String) (d : StockDataTool.Snapshot)
    (h1 : (StockDataTool.get_stock_data st env1 sym per).1 = some d)
    (h2 : StockDataTool.cacheFresh (StockDataTool.get_stock_data st env1 sym per).2.1
      sym env2.now = true) :
    (StockDataTool.get_stock_data (StockDataTool.get_stock_data st env1 sym per).2.1
        env2 sym per).1 = some d
    ∧ (StockDataTool.get_stock_data (StockDataTool.get_stock_data st env1 sym per).2.1
        env2 sym per).2.2 = [] := by
  obtain ⟨ts, hts⟩ := StockDataTool.get_stock_data_cache_some st env1 sym per d h1
  unfold StockDataTool.cacheFresh at h2
  rw [hts] at h2
  simp only [decide_eq_true_eq] at h2
  rw [StockDataTool.get_stock_data_hit _ env2 sym per ts d hts h2]
  exact ⟨rfl, rfl⟩

/-- C10: a non-stale cache entry is returned for EVERY period token, with no
effects — the period argument is ignored on cache hits, so two calls within
the TTL naming different periods return the same snapshot and the second call
performs no fetch for the newly requested range. -/
theorem C10_cache_hit_ignores_period (st : StockDataTool.ToolState) (env : StockDataTool.Env)
    (sym : String) (ts : ℤ) (d : StockDataTool.Snapshot)
    (h1 : StockDataTool.cacheLookup st.cache sym = some (ts, d))
    (h2 : env.now - ts < st.cache_duration) :
    ∀ period, StockDataTool.get_stock_data st env sym period = (some d, st, []) :=
  fun period => StockDataTool.get_stock_data_hit st env sym period ts d h1 h2

namespace StockDataTool

theorem fetchCount_append (a b : List Effect) :
    fetchCount (a ++ b) = fetchCount a + fetchCount b := by
  simp [fetchCount, List.filter_append]

theorem backoffs_append (a b : List Effect) :
    backoffs (a ++ b) = backoffs a ++ backoffs b := by
  simp [backoffs]

theorem fetchCount_rateLimit (st : ToolState) (env : Env) :
    fetchCount (rateLimitEffects st env) = 0 := by
  unfold rateLimitEffects
  split_ifs <;> rfl

theorem backoffs_rateLimit (st : ToolState) (env : Env) :
    backoffs (rateLimitEffects st env) = [] := by
  unfold rateLimitEffects
  split_ifs <;> rfl

/-- Each loop iteration adds at most one fetch attempt. -/
theorem retryLoop_fetchCount_le (st : ToolState) (env : Env) (sym per : String) :
    ∀ fuel attempt effs,
      fetchCount (retryLoop st env sym per fuel attempt effs).2.2 ≤ fetchCount effs + fuel := by
  intro fuel
  induction fuel with
  | zero =>
    intro attempt effs
    simp only [retryLoop, fallback_effects]
    omega
  | succ n ih =>
    intro attempt effs
    cases hf : env.fetch attempt with
    | ok d0 =>
      simp only [retryLoop, hf, fetchCount_append]
      have : fetchCount [Effect.fetchAttempt sym per attempt] = 1 := rfl
      omega
    | nodata =>
      simp only [retryLoop, hf]
      have h1 := ih (attempt + 1) (effs ++ [Effect.fetchAttempt sym per attempt])
      rw [fetchCount_append] at h1
      have : fetchCount [Effect.fetchAttempt sym per attempt] = 1 := rfl
      omega
    | http429 =>
      simp only [retryLoop, hf]
      have h1 := ih (attempt + 1)
        (effs ++ [Effect.fetchAttempt sym per attempt, Effect.backoff ((2 ^ attempt) * 2)])
      rw [fetchCount_append] at h1
      have : fetchCount [Effect.fetchAttempt sym per attempt,
        Effect.backoff ((2 ^ attempt) * 2)] = 1 := rfl
      omega
    | httpOther c =>
      simp only [retryLoop, hf, fallback_effects, fetchCount_append]
      have : fetchCount [Effect.fetchAttempt sym per attempt] = 1 := rfl
      omega
    | exc =>
      simp only [retryLoop, hf, fallback_effects, fetchCount_append]
      have : fetchCount [Effect.fetchAttempt sym per attempt] = 1 := rfl
      omega

/-- A non-429, non-success error at relative position k, after k
continue-outcomes, ends the loop with exactly k + 1 attempts made. -/
theorem retryLoop_stop_count (st : ToolState) (env : Env) (sym per : String) :
    ∀ fuel attempt effs k, k < fuel →
      (∀ j, attempt ≤ j → j < attempt + k →
        env.fetch j = FetchOutcome.nodata ∨ env.fetch j = FetchOutcome.http429) →
      ((∃ c, env.fetch (attempt + k) = FetchOutcome.httpOther c)
        ∨ env.fetch (attempt + k) = FetchOutcome.exc) →
      fetchCount (retryLoop st env sym per fuel attempt effs).2.2 =
        fetchCount effs + (k + 1) := by
  intro fuel
  induction fuel with
  | zero =>
    intro attempt effs k hk
    exact absurd hk (Nat.not_lt_zero k)
  | succ n ih =>
    intro attempt effs k hk hcont hstop
    cases k with
    | zero =>
      simp only [Nat.add_zero] at hstop
      rcases hstop with ⟨c, hc⟩ | hc <;>
      · simp only [retryLoop, hc, fallback_effects, fetchCount_append]
        rfl
    | succ k2 =>
      have h0 := hcont attempt (le_refl _) (by omega)
      have hstop2 : (∃ c, env.fetch (attempt + 1 + k2) = FetchOutcome.httpOther c)
          ∨ env.fetch (attempt + 1 + k2) = FetchOutcome.exc := by
        have heq : attempt + 1 + k2 = attempt + (k2 + 1) := by omega
        rw [heq]
        exact hstop
      have hcont2 : ∀ j, attempt + 1 ≤ j → j < attempt + 1 + k2 →
          env.fetch j = FetchOutcome.nodata ∨ env.fetch j = FetchOutcome.http429 :=
        fun j hj1 hj2 => hcont j (by omega) (by omega)
      rcases h0 with h0 | h0
      · simp only [retryLoop, h0]
        rw [ih (attempt + 1) _ k2 (by omega) hcont2 hstop2, fetchCount_append]
        have : fetchCount [Effect.fetchAttempt sym per attempt] = 1 := rfl
        omega
      · simp only [retryLoop, h0]
        rw [ih (attempt + 1) _ k2 (by omega) hcont2 hstop2, fetchCount_append]
        have : fetchCount [Effect.fetchAttempt sym per attempt,
          Effect.backoff ((2 ^ attempt) * 2)] = 1 := rfl
        omega

/-- When no attempt succeeds, the loop ends in the fallback. -/
theorem retryLoop_no_ok (st : ToolState) (env : Env) (sym per : String) :
    ∀ fuel attempt effs,
      (∀ k, attempt ≤ k → k < attempt + fuel → ∀ d0, env.fetch k ≠ FetchOutcome.ok d0) →
      ∃ effs2, retryLoop st env sym per fuel attempt effs = fallback st env sym effs2 := by
  intro fuel
  induction fuel with
  | zero => intro attempt effs hk; exact ⟨effs, rfl⟩
  | succ n ih =>
    intro attempt effs hk
    cases hf : env.fetch attempt with
    | ok d0 => exact absurd hf (hk attempt (le_refl _) (by omega) d0)
    | nodata =>
      obtain ⟨e2, he⟩ := ih (attempt + 1) (effs ++ [Effect.fetchAttempt sym per attempt])
        (fun k hk1 hk2 => hk k (by omega) (by omega))
      exact ⟨e2, by simp only [retryLoop, hf]; exact he⟩
    | http429 =>
      obtain ⟨e2, he⟩ := ih (attempt + 1)
        (effs ++ [Effect.fetchAttempt sym per attempt, Effect.backoff ((2 ^ attempt) * 2)])
        (fun k hk1 hk2 => hk k (by omega) (by omega))
      exact ⟨e2, by simp only [retryLoop, hf]; exact he⟩
    | httpOther c =>
      exact ⟨effs ++ [Effect.fetchAttempt sym per attempt], by simp only [retryLoop, hf]⟩
    | exc =>
      exact ⟨effs ++ [Effect.fetchAttempt sym per attempt], by simp only [retryLoop, hf]⟩

end StockDataTool

/-- C7: each `get_stock_data` call makes at most 3 upstream attempts; three
successive rate-limit responses produce backoff sleeps of exactly 2, 4, 8
seconds around the retries; any other upstream error after k continue
outcomes ends retrying immediately with k + 1 attempts made; and when no
attempt succeeds the call falls through to the fallback policy — the
synthesized mock snapshot, cached like a real result, when mock mode is
enabled, otherwise the absent result. -/
theorem C7_retry_policy (st : StockDataTool.ToolState) (env : StockDataTool.Env)
    (sym per : String) :
    StockDataTool.fetchCount (StockDataTool.get_stock_data st env sym per).2.2 ≤ 3
    ∧ (StockDataTool.cacheFresh st sym env.now = false →
        (∀ k, k < 3 → env.fetch k = StockDataTool.FetchOutcome.http429) →
        StockDataTool.backoffs (StockDataTool.get_stock_data st env sym per).2.2 = [2, 4, 8]
          ∧ StockDataTool.fetchCount (StockDataTool.get_stock_data st env sym per).2.2 = 3)
    ∧ (∀ k, k < 3 → StockDataTool.cacheFresh st sym env.now = false →
        (∀ j, j < k → env.fetch j = StockDataTool.FetchOutcome.nodata
          ∨ env.fetch j = StockDataTool.FetchOutcome.http429) →
        ((∃ c, env.fetch k = StockDataTool.FetchOutcome.httpOther c)
          ∨ env.fetch k = StockDataTool.FetchOutcome.exc) →
        StockDataTool.fetchCount (StockDataTool.get_stock_data st env sym per).2.2 = k + 1)
    ∧ (StockDataTool.cacheFresh st sym env.now = false →
        (∀ k, k < 3 → ∀ d0, env.fetch k ≠ StockDataTool.FetchOutcome.ok d0) →
        (StockDataTool.get_stock_data st env sym per).1 =
            (if st.use_mock then
              some (StockDataTool.get_mock_data sym env.today env.rng) else none)
          ∧ (st.use_mock = true →
              StockDataTool.cacheLookup (StockDataTool.get_stock_data st env sym per).2.1.cache
                  sym =
                some (env.now, StockDataTool.get_mock_data sym env.today env.rng))) := by
  refine ⟨?_, ?_, ?_, ?_⟩
  · by_cases hfresh : StockDataTool.cacheFresh st sym env.now = true
    · unfold StockDataTool.cacheFresh at hfresh
      rcases hc : StockDataTool.cacheLookup st.cache sym with _ | ⟨ts, d0⟩
      · rw [hc] at hfresh
        simp at hfresh
      · rw [hc] at hfresh
        simp only [decide_eq_true_eq] at hfresh
        rw [StockDataTool.get_stock_data_hit st env sym per ts d0 hc hfresh]
        simp [StockDataTool.fetchCount]
    · have hmiss : StockDataTool.cacheFresh st sym env.now = false := by
        revert hfresh
        cases StockDataTool.cacheFresh st sym env.now <;> simp
      rw [StockDataTool.get_stock_data_miss st env sym per hmiss]
      unfold StockDataTool.fetchFresh
      have := StockDataTool.retryLoop_fetchCount_le st env sym per 3 0
        (StockDataTool.rateLimitEffects st env)
      rw [StockDataTool.fetchCount_rateLimit] at this
      omega
  · intro hmiss hall
    have e0 := hall 0 (by omega)
    have e1 := hall 1 (by omega)
    have e2 := hall 2 (by omega)
    rw [StockDataTool.get_stock_data_miss st env sym per hmiss]
    unfold StockDataTool.fetchFresh
    simp only [StockDataTool.retryLoop, e0, e1, e2, StockDataTool.fallback_effects]
    constructor
    · rw [StockDataTool.backoffs_append, StockDataTool.backoffs_append,
        StockDataTool.backoffs_append, StockDataTool.backoffs_rateLimit]
      norm_num [StockDataTool.backoffs, List.filterMap]
    · rw [StockDataTool.fetchCount_append, StockDataTool.fetchCount_append,
        StockDataTool.fetchCount_append, StockDataTool.fetchCount_rateLimit]
      norm_num [StockDataTool.fetchCount, StockDataTool.isFetch, List.filter]
  · intro k hk hmiss hcont hstop
    rw [StockDataTool.get_stock_data_miss st env sym per hmiss]
    unfold StockDataTool.fetchFresh
    rw [StockDataTool.retryLoop_stop_count st env sym per 3 0 _ k hk
      (fun j hj1 hj2 => hcont j (by omega)) (by simpa using hstop)]
    rw [StockDataTool.fetchCount_rateLimit]
    omega
  · intro hmiss hnok
    rw [StockDataTool.get_stock_data_miss st env sym per hmiss]
    unfold StockDataTool.fetchFresh
    obtain ⟨e2, he⟩ := StockDataTool.retryLoop_no_ok st env sym per 3 0
      (StockDataTool.rateLimitEffects st env) (fun k hk1 hk2 d0 => hnok k (by omega) d0)
    rw [he]
    exact ⟨StockDataTool.fallback_fst _ _ _ _,
      fun hm => StockDataTool.fallback_cache_mock _ _ _ _ hm⟩

/-! ## Concrete fixtures for the cache-layer witnesses -/

/-- A concrete upstream snapshot. -/
def demo_snapshot : StockDataTool.Snapshot :=
  { symbol := "AAPL", price := 100, open_price := 99, high := 101, low := 98,
    volume := 5, date := "2026-02-01", change_percent := 1, history := [] }

/-- A fresh tool state: empty cache, 300-second TTL, mock mode off. -/
def demo_state : StockDataTool.ToolState :=
  { cache := [], cache_duration := 300, use_mock := false,
    last_request_time := 0, min_request_interval := 1 }

/-- Like `demo_state` but with mock mode enabled. -/
def demo_state_mock : StockDataTool.ToolState :=
  { cache := [], cache_duration := 300, use_mock := true,
    last_request_time := 0, min_request_interval := 1 }

/-- A tool state whose cache already holds `demo_snapshot` for AAPL. -/
def demo_state_cached : StockDataTool.ToolState :=
  { cache := [("AAPL", (0, demo_snapshot))], cache_duration := 300, use_mock := false,
    last_request_time := 0, min_request_interval := 1 }

def demo_rng : StockDataTool.MockRng :=
  { noise := 0, volume := 7, change_percent := 0, hist_noises := [] }

/-- Environment whose first fetch succeeds. -/
def demo_env_ok : StockDataTool.Env :=
  { now := 10, today := "2026-02-01", fetch := fun _ => StockDataTool.FetchOutcome.ok demo_snapshot,
    rng := demo_rng }

/-- Environment ten seconds later (fetches would fail). -/
def demo_env_later : StockDataTool.Env :=
  { now := 20, today := "2026-02-01", fetch := fun _ => StockDataTool.FetchOutcome.exc,
    rng := demo_rng }

/-- Environment whose fetches are always rate-limited. -/
def demo_env_429 : StockDataTool.Env :=
  { now := 10, today := "2026-02-01", fetch := fun _ => StockDataTool.FetchOutcome.http429,
    rng := demo_rng }

/-- Environment whose fetches fail with HTTP 500. -/
def demo_env_500 : StockDataTool.Env :=
  { now := 10, today := "2026-02-01", fetch := fun _ => StockDataTool.FetchOutcome.httpOther 500,
    rng := demo_rng }

/-- Witness of C5 at a concrete first fetch and a second call 10 s later. -/
theorem C5_cache_roundtrip_witness :
    (StockDataTool.get_stock_data
        (StockDataTool.get_stock_data demo_state demo_env_ok "AAPL" "1y").2.1
        demo_env_later "AAPL" "1y").1 = some demo_snapshot
    ∧ (StockDataTool.get_stock_data
        (StockDataTool.get_stock_data demo_state demo_env_ok "AAPL" "1y").2.1
        demo_env_later "AAPL" "1y").2.2 = [] :=
  C5_cache_roundtrip demo_state demo_env_ok demo_env_later "AAPL" "1y" demo_snapshot
    (by rfl) (by rfl)

/-- Witness of C10 at a pre-populated cache and the period token 5y. -/
theorem C10_cache_hit_ignores_period_witness :
    StockDataTool.get_stock_data demo_state_cached demo_env_later "AAPL" "5y"
      = (some demo_snapshot, demo_state_cached, []) :=
  C10_cache_hit_ignores_period demo_state_cached demo_env_later "AAPL" 0 demo_snapshot
    (by rfl) (by decide) "5y"

/-- Witness of C7: the attempt bound and 429 schedule under an all-429
upstream, the immediate stop under an HTTP 500, and the mock fallback. -/
theorem C7_retry_policy_witness :
    StockDataTool.fetchCount
        (StockDataTool.get_stock_data demo_state_mock demo_env_429 "AAPL" "1y").2.2 ≤ 3
    ∧ (StockDataTool.backoffs
          (StockDataTool.get_stock_data demo_state_mock demo_env_429 "AAPL" "1y").2.2 = [2, 4, 8]
        ∧ StockDataTool.fetchCount
            (StockDataTool.get_stock_data demo_state_mock demo_env_429 "AAPL" "1y").2.2 = 3)
    ∧ StockDataTool.fetchCount
        (StockDataTool.get_stock_data demo_state_mock demo_env_500 "AAPL" "1y").2.2 = 0 + 1
    ∧ ((StockDataTool.get_stock_data demo_state_mock demo_env_429 "AAPL" "1y").1 =
          (if demo_state_mock.use_mock then
            some (StockDataTool.get_mock_data "AAPL" demo_env_429.today demo_env_429.rng)
          else none)
        ∧ (demo_state_mock.use_mock = true →
            StockDataTool.cacheLookup
                (StockDataTool.get_stock_data demo_state_mock demo_env_429 "AAPL" "1y").2.1.cache
                "AAPL" =
              some (demo_env_429.now,
                StockDataTool.get_mock_data "AAPL" demo_env_429.today demo_env_429.rng))) :=
  ⟨(C7_retry_policy demo_state_mock demo_env_429 "AAPL" "1y").1,
   (C7_retry_policy demo_state_mock demo_env_429 "AAPL" "1y").2.1 (by rfl) (fun k hk => rfl),
   (C7_retry_policy demo_state_mock demo_env_500 "AAPL" "1y").2.2.1 0 (by omega) (by rfl)
     (fun j hj => absurd hj (Nat.not_lt_zero j)) (Or.inl ⟨500, rfl⟩),
   (C7_retry_policy demo_state_mock demo_env_429 "AAPL" "1y").2.2.2 (by rfl)
     (by intro k hk d0 h; simp [demo_env_429] at h)⟩

/-! ## Pipeline validate stage — src/agent.py -/

namespace FinancialAgent

/-- Model of the `ToolCall` records the validate stage serializes into data
points; `output` stands for the `json.dumps` rendering of the tool output. -/
structure ToolCallRec where
  tool_name : String
  output : String
deriving DecidableEq

/-- Conversation entry (timestamps are not modelled; no claim involves
them). -/
structure MessageRec where
  role : String
  content : String
deriving DecidableEq

/-- Model of the fields of `AgentState` (src/state.py) that the validate
stage can read or write, plus representative untouched fields. -/
structure AgentState where
  messages : List MessageRec
  current_query : String
  comparison_symbols : List String
  portfolio_holdings : List (String × ℚ)
  tool_calls : List ToolCallRec
  final_response : String
  guardrail_checks : Option GuardrailValidator.Verdict
  session_id : String
deriving DecidableEq

/-- Fixed-point rendering of the guardrail score (a multiple of 1/5) with
two decimals, modelling the Python interpolation `{score:.2f}`. -/
def formatScore2 (q : ℚ) : String :=
  if q = 0 then "0.00" else if q = 1/5 then "0.20" else if q = 2/5 then "0.40"
  else if q = 3/5 then "0.60" else if q = 4/5 then "0.80" else "1.00"

/-- Model of the `validate` stage of src/agent.py: serializes the logged tool
calls into data points, runs the guardrail suite on the final response,
stores the verdict and appends a system message carrying the score.  The
suggestion lookup and logging on a failed verdict write no state. -/
def validate_stage (st : AgentState) : AgentState :=
  let data_points := st.tool_calls.map (fun c => c.tool_name ++ ": " ++ c.output)
  let validation_results := GuardrailValidator.validate st.final_response data_points
  { st with
      guardrail_checks := some validation_results
      messages := st.messages ++ [⟨"system",
        "Validation complete. Score: " ++ formatScore2 validation_results.score ++ "/1.0"⟩] }

end FinancialAgent

/-- C8: the validate stage leaves `final_response` (and every other field it
does not own) unchanged whatever the verdict; it only stores the verdict in
`guardrail_checks` and appends one system message carrying the numeric
score. -/
theorem C8_validate_frame (st : FinancialAgent.AgentState) :
    (FinancialAgent.validate_stage st).final_response = st.final_response
    ∧ (FinancialAgent.validate_stage st).guardrail_checks =
        some (GuardrailValidator.validate st.final_response
          (st.tool_calls.map (fun c => c.tool_name ++ ": " ++ c.output)))
    ∧ (FinancialAgent.validate_stage st).messages = st.messages ++ [⟨"system",
        "Validation complete. Score: " ++ FinancialAgent.formatScore2
          (GuardrailValidator.validate st.final_response
            (st.tool_calls.map (fun c => c.tool_name ++ ": " ++ c.output))).score ++ "/1.0"⟩]
    ∧ (FinancialAgent.validate_stage st).tool_calls = st.tool_calls
    ∧ (FinancialAgent.validate_stage st).current_query = st.current_query
    ∧ (FinancialAgent.validate_stage st).comparison_symbols = st.comparison_symbols
    ∧ (FinancialAgent.validate_stage st).portfolio_holdings = st.portfolio_holdings
    ∧ (FinancialAgent.validate_stage st).session_id = st.session_id :=
  ⟨rfl, rfl, rfl, rfl, rfl, rfl, rfl, rfl⟩
